import Mathlib

/-!
Verification development for the kada-mandiya-analytics event pipeline.

The Python sources are shallowly embedded:
* JSON values (the payloads produced by `json.loads`) are the mutual
  inductive `Json`/`JsonArr`/`JsonObj`; Python dictionaries are association
  lists of key/value pairs (a `json.loads` dictionary has distinct keys).
* Timestamps are integers (microseconds since the Unix epoch, UTC) except in
  `src/utils/time.py` where whole seconds suffice.
* Database interaction is modelled by explicit result values: an `INSERT`
  either succeeds or yields the driver error text (`DbResult`), and tables
  are lists of rows threaded through the functions that update them.
* `hashlib.sha256` is embedded as an executable SHA-256 over byte lists.
-/

/-! ### Python string primitives

Python compares strings lexicographically by Unicode code point; `strLtb` is
that comparison on the underlying character lists, and `strLeb` is its
negated converse, matching `a <= b ↔ not (b < a)` for a total order.
-/

def charLtb (a b : Char) : Bool := decide (a.toNat < b.toNat)

def strLtbAux : List Char → List Char → Bool
  | _, [] => false
  | [], _ :: _ => true
  | a :: as, b :: bs => if a = b then strLtbAux as bs else charLtb a b

def strLtb (s t : String) : Bool := strLtbAux s.data t.data

def strLeb (s t : String) : Bool := ! strLtb t s

/-- Model of Python `str.strip()`: remove leading and trailing whitespace. -/
def pyStrip (s : String) : String :=
  String.mk (((s.data.dropWhile Char.isWhitespace).reverse.dropWhile Char.isWhitespace).reverse)

/-- Does `hay` start with `needle`? -/
def startsWithChars : List Char → List Char → Bool
  | [], _ => true
  | _ :: _, [] => false
  | a :: as, b :: bs => a == b && startsWithChars as bs

def containsChars : List Char → List Char → Bool
  | [], needle => needle == []
  | hay@(_ :: tl), needle => startsWithChars needle hay || containsChars tl needle

/-- Model of the Python substring test `needle in hay`. -/
def strContains (hay needle : String) : Bool := containsChars hay.data needle.data

/-! ### JSON values

The value space of `json.loads`: Python dictionaries become `JsonObj`
association lists (keys are distinct in a parsed dictionary), lists become
`JsonArr`.  JSON numbers are embedded as integers, which covers every
payload the pipeline manipulates.
-/

mutual
inductive Json where
  | null
  | bool (b : Bool)
  | num (n : Int)
  | str (s : String)
  | arr (xs : JsonArr)
  | obj (fs : JsonObj)
  deriving DecidableEq
inductive JsonArr where
  | nil
  | cons (hd : Json) (tl : JsonArr)
  deriving DecidableEq
inductive JsonObj where
  | nil
  | cons (k : String) (v : Json) (tl : JsonObj)
  deriving DecidableEq
end

def JsonObj.toList : JsonObj → List (String × Json)
  | .nil => []
  | .cons k v tl => (k, v) :: tl.toList

def JsonObj.ofList : List (String × Json) → JsonObj
  | [] => .nil
  | (k, v) :: tl => .cons k v (JsonObj.ofList tl)

/-- Model of Python `dict.get(key)` (keys of a parsed dict are distinct). -/
def JsonObj.get : JsonObj → String → Option Json
  | .nil, _ => none
  | .cons k v tl, key => if k = key then some v else tl.get key

/-- Ordering of object entries by key, as Python compares the `str` keys. -/
def jkeyLe (a b : String × Json) : Prop := strLeb a.1 b.1 = true

instance : DecidableRel jkeyLe := fun a b => instDecidableEqBool (strLeb a.1 b.1) true

/-- Ordering of already-serialized object entries by key. -/
def pairLe (a b : String × String) : Prop := strLeb a.1 b.1 = true

instance : DecidableRel pairLe := fun a b => instDecidableEqBool (strLeb a.1 b.1) true

/-! Canonical form of a JSON value: object entries recursively sorted by key.
Two payloads are structurally equal up to dictionary key order exactly when
their canonical forms coincide. -/

mutual
def canon : Json → Json
  | .null => .null
  | .bool b => .bool b
  | .num n => .num n
  | .str s => .str s
  | .arr xs => .arr (canonArr xs)
  | .obj fs => .obj (JsonObj.ofList (List.insertionSort jkeyLe (canonObjPairs fs)))
  termination_by structural j => j
def canonArr : JsonArr → JsonArr
  | .nil => .nil
  | .cons x tl => .cons (canon x) (canonArr tl)
  termination_by structural xs => xs
def canonObjPairs : JsonObj → List (String × Json)
  | .nil => []
  | .cons k v tl => (k, canon v) :: canonObjPairs tl
  termination_by structural fs => fs
end

/-! ### stable_json (src/consumers/idempotency.py)

`json.dumps(value, ensure_ascii=False, sort_keys=True, separators=(",", ":"))`:
object keys sorted, compact separators, non-ASCII characters kept verbatim,
characters below U+0020 plus quote and backslash escaped.
-/

def hexDigit (n : Nat) : Char := if n < 10 then Char.ofNat (48 + n) else Char.ofNat (87 + n)

def jsonEscapeChar (c : Char) : List Char :=
  if c = '"' then ['\\', '"']
  else if c = '\\' then ['\\', '\\']
  else if c = '\n' then ['\\', 'n']
  else if c = '\t' then ['\\', 't']
  else if c = '\r' then ['\\', 'r']
  else if c = '\x08' then ['\\', 'b']
  else if c = '\x0c' then ['\\', 'f']
  else if c.toNat < 32 then ['\\', 'u', '0', '0', hexDigit (c.toNat / 16), hexDigit (c.toNat % 16)]
  else [c]

def jsonQuote (s : String) : String :=
  "\"" ++ String.mk (s.data.flatMap jsonEscapeChar) ++ "\""

/-- One serialized object entry, `"key":value`. -/
def serEntry (p : String × String) : String := jsonQuote p.1 ++ ":" ++ p.2

mutual
def stableJson : Json → String
  | .null => "null"
  | .bool b => if b then "true" else "false"
  | .num n => toString n
  | .str s => jsonQuote s
  | .arr xs => "[" ++ String.intercalate "," (stableJsonArr xs) ++ "]"
  | .obj fs =>
      "\x7b" ++
        String.intercalate "," ((List.insertionSort pairLe (stableJsonObj fs)).map serEntry) ++
      "\x7d"
  termination_by structural j => j
def stableJsonArr : JsonArr → List String
  | .nil => []
  | .cons x tl => stableJson x :: stableJsonArr tl
  termination_by structural xs => xs
def stableJsonObj : JsonObj → List (String × String)
  | .nil => []
  | .cons k v tl => (k, stableJson v) :: stableJsonObj tl
  termination_by structural fs => fs
end

/-- `stable_json` from src/consumers/idempotency.py. -/
def stable_json (value : Json) : String := stableJson value

/-- The serialization of one object entry, key kept, value serialized. -/
def serPairJ (p : String × Json) : String × String := (p.1, stableJson p.2)

/-! ### SHA-256 (model of hashlib.sha256 used by compute_fingerprint)

Executable SHA-256 over lists of byte values (FIPS 180-4), with 32-bit words
represented as natural numbers reduced modulo 2^32.
-/

def w32 (n : Nat) : Nat := n % 4294967296

def rotr32 (n x : Nat) : Nat := (x / 2 ^ n + x % 2 ^ n * 2 ^ (32 - n)) % 4294967296

def shr32 (n x : Nat) : Nat := x / 2 ^ n

def bnot32 (x : Nat) : Nat := 4294967295 ^^^ x

def sha256Ch (x y z : Nat) : Nat := (x &&& y) ^^^ (bnot32 x &&& z)

def sha256Maj (x y z : Nat) : Nat := (x &&& y) ^^^ (x &&& z) ^^^ (y &&& z)

def sumUpperA (x : Nat) : Nat := rotr32 2 x ^^^ rotr32 13 x ^^^ rotr32 22 x

def sumUpperE (x : Nat) : Nat := rotr32 6 x ^^^ rotr32 11 x ^^^ rotr32 25 x

def sigLower0 (x : Nat) : Nat := rotr32 7 x ^^^ rotr32 18 x ^^^ shr32 3 x

def sigLower1 (x : Nat) : Nat := rotr32 17 x ^^^ rotr32 19 x ^^^ shr32 10 x

structure Hash8 where
  a : Nat
  b : Nat
  c : Nat
  d : Nat
  e : Nat
  f : Nat
  g : Nat
  h : Nat

def sha256H0 : Hash8 :=
  ⟨1779033703, 3144134277, 1013904242, 2773480762,
   1359893119, 2600822924, 528734635, 1541459225⟩

def sha256K : List Nat :=
  [1116352408, 1899447441, 3049323471, 3921009573, 961987163,
   1508970993, 2453635748, 2870763221, 3624381080, 310598401,
   607225278, 1426881987, 1925078388, 2162078206, 2614888103,
   3248222580, 3835390401, 4022224774, 264347078, 604807628,
   770255983, 1249150122, 1555081692, 1996064986, 2554220882,
   2821834349, 2952996808, 3210313671, 3336571891, 3584528711,
   113926993, 338241895, 666307205, 773529912, 1294757372,
   1396182291, 1695183700, 1986661051, 2177026350, 2456956037,
   2730485921, 2820302411, 3259730800, 3345764771, 3516065817,
   3600352804, 4094571909, 275423344, 430227734, 506948616,
   659060556, 883997877, 958139571, 1322822218, 1537002063,
   1747873779, 1955562222, 2024104815, 2227730452, 2361852424,
   2428436474, 2756734187, 3204031479, 3329325298]

def bytesToWords : List Nat → List Nat
  | b0 :: b1 :: b2 :: b3 :: rest => (((b0 * 256 + b1) * 256 + b2) * 256 + b3) :: bytesToWords rest
  | _ => []

def msgSchedule (ws : List Nat) : Array Nat :=
  (List.range 48).foldl
    (fun w i =>
      w.push (w32 (sigLower1 (w.getD (i + 14) 0) + w.getD (i + 9) 0 + sigLower0 (w.getD (i + 1) 0) +
        w.getD i 0)))
    (Array.mk ws)

def sha256Round (w : Array Nat) (x : Hash8) (i : Nat) : Hash8 :=
  let t1 := w32 (x.h + sumUpperE x.e + sha256Ch x.e x.f x.g + sha256K.getD i 0 + w.getD i 0)
  let t2 := w32 (sumUpperA x.a + sha256Maj x.a x.b x.c)
  ⟨w32 (t1 + t2), x.a, x.b, x.c, w32 (x.d + t1), x.e, x.f, x.g⟩

def sha256Block (st : Hash8) (block : List Nat) : Hash8 :=
  let w := msgSchedule (bytesToWords block)
  let y := (List.range 64).foldl (sha256Round w) st
  ⟨w32 (st.a + y.a), w32 (st.b + y.b), w32 (st.c + y.c), w32 (st.d + y.d),
   w32 (st.e + y.e), w32 (st.f + y.f), w32 (st.g + y.g), w32 (st.h + y.h)⟩

def padBytes (msg : List Nat) : List Nat :=
  let padLen := (119 - msg.length % 64) % 64
  let bitLen := msg.length * 8
  msg ++ 128 :: List.replicate padLen 0 ++
    [bitLen / 2 ^ 56 % 256, bitLen / 2 ^ 48 % 256, bitLen / 2 ^ 40 % 256, bitLen / 2 ^ 32 % 256,
     bitLen / 2 ^ 24 % 256, bitLen / 2 ^ 16 % 256, bitLen / 2 ^ 8 % 256, bitLen % 256]

def chunks64Go : Nat → List Nat → List (List Nat)
  | 0, _ => []
  | _, [] => []
  | fuel + 1, l => l.take 64 :: chunks64Go fuel (l.drop 64)

def chunks64 (l : List Nat) : List (List Nat) := chunks64Go (l.length / 64 + 1) l

def sha256 (msg : List Nat) : Hash8 := (chunks64 (padBytes msg)).foldl sha256Block sha256H0

def word8Hex (w : Nat) : List Char :=
  [hexDigit (w / 16 ^ 7 % 16), hexDigit (w / 16 ^ 6 % 16), hexDigit (w / 16 ^ 5 % 16),
   hexDigit (w / 16 ^ 4 % 16), hexDigit (w / 16 ^ 3 % 16), hexDigit (w / 16 ^ 2 % 16),
   hexDigit (w / 16 % 16), hexDigit (w % 16)]

def sha256hexOf (st : Hash8) : String :=
  String.mk (word8Hex st.a ++ word8Hex st.b ++ word8Hex st.c ++ word8Hex st.d ++
    word8Hex st.e ++ word8Hex st.f ++ word8Hex st.g ++ word8Hex st.h)

/-- UTF-8 bytes of a string, `s.encode("utf-8", errors="replace")` (Lean
strings carry no lone surrogates, so the replacement path never fires). -/
def utf8Bytes (s : String) : List Nat := s.toUTF8.toList.map UInt8.toNat

/-- `compute_fingerprint` from src/consumers/idempotency.py: SHA-256 hex digest
of `routing_key + "|" + (message_id or "") + "|" + stable_json(payload_obj)`. -/
def compute_fingerprint (routing_key : String) (message_id : Option String)
    (payload_obj : Json) : String :=
  sha256hexOf (sha256 (utf8Bytes
    (routing_key ++ "|" ++ message_id.getD "" ++ "|" ++ stable_json payload_obj)))

/-! ### Idempotency claims (src/consumers/idempotency.py)

`conn.execute` of the INSERT is abstracted as a function from the bound
parameters to a `DbResult`: either the statement succeeded or the driver
raised `DBAPIError` whose `str(exc.orig)` text is carried in `err`.
Returning `.error msg` models re-raising the exception to the caller.
-/

inductive DbResult where
  | ok
  | err (msg : String)
  deriving DecidableEq

/-- Python `s or dflt` for strings: the default replaces the empty string. -/
def orDefault (s dflt : String) : String := if s = "" then dflt else s

/-- Python `s or None` after truncation: empty strings become `None`. -/
def noneIfEmpty (s : String) : Option String := if s = "" then none else some s

/-- Parameters bound by the `ops.event_fingerprints` INSERT:
`source` is `(source or "rabbitmq")[:50]`. -/
structure FpClaimParams where
  fingerprint : String
  firstSeenAt : Int
  source : String
  deriving DecidableEq

def fpClaimParams (fingerprint : String) (first_seen_at : Int) (source : String) :
    FpClaimParams :=
  ⟨fingerprint, first_seen_at, (orDefault source "rabbitmq").take 50⟩

/-- SQL Server duplicate-key detection from src/consumers/idempotency.py:
errors 2601 (unique index) and 2627 (primary key) looked up in the text. -/
def isDuplicateKeyMsg (msg : String) : Bool :=
  strContains msg "2601" || strContains msg "2627"

/-- `try_claim_fingerprint`: INSERT the claim row, `true` on success, `false`
when the driver error text carries a duplicate-key code, re-raise otherwise. -/
def try_claim_fingerprint (fingerprint : String) (first_seen_at : Int) (source : String)
    (exec : FpClaimParams → DbResult) : Except String Bool :=
  match exec (fpClaimParams fingerprint first_seen_at source) with
  | .ok => .ok true
  | .err msg => if isDuplicateKeyMsg msg then .ok false else .error msg

/-- Parameters bound by the `ops.processed_events` INSERT. -/
structure EvClaimParams where
  eventId : String
  firstSeenAt : Int
  routingKey : Option String
  messageId : Option String
  source : String
  deriving DecidableEq

def evClaimParams (event_id : String) (first_seen_at : Int) (routing_key : String)
    (message_id : Option String) (source : String) : EvClaimParams :=
  ⟨event_id, first_seen_at,
    noneIfEmpty ((orDefault routing_key "").take 200),
    noneIfEmpty ((message_id.getD "").take 128),
    (orDefault source "rabbitmq").take 50⟩

/-- `try_claim_event_id`: identical contract keyed by `event_id`. -/
def try_claim_event_id (event_id : String) (first_seen_at : Int) (routing_key : String)
    (message_id : Option String) (source : String)
    (exec : EvClaimParams → DbResult) : Except String Bool :=
  match exec (evClaimParams event_id first_seen_at routing_key message_id source) with
  | .ok => .ok true
  | .err msg => if isDuplicateKeyMsg msg then .ok false else .error msg

/-- Store model of an INSERT into a table whose primary key column already
holds `existing`: SQL Server rejects a duplicate key with error 2627. -/
def insertUniqueResult (existing : List String) (key : String) : DbResult :=
  if key ∈ existing then
    .err "Violation of PRIMARY KEY constraint. Cannot insert duplicate key. Error 2627."
  else .ok

/-! ### Time utilities (src/utils/time.py)

Timezone-aware instants are whole seconds since the Unix epoch here;
`ensure_utc` on an aware value is the identity in this representation.
-/

def MAX_FUTURE_SKEW_SECONDS : Int := 10 * 60

def MAX_PAST_AGE_DAYS : Int := 365

/-- `validate_event_timestamp(dt, now)` for an aware timestamp `ts`. -/
def validate_event_timestamp (ts now_utc : Int) : Except String Unit :=
  if ts > now_utc + MAX_FUTURE_SKEW_SECONDS then
    .error "event_timestamp is too far in the future"
  else if ts < now_utc - MAX_PAST_AGE_DAYS * 86400 then
    .error "event_timestamp is too far in the past"
  else .ok ()

/-! ### Event normalizer (src/consumers/mapper.py)

`str(v)` on a JSON value: strings verbatim, other values through Python
`repr`-style rendering.  Only emptiness after `strip()` matters downstream;
the rendering of containers is never empty.
-/

mutual
def pyRepr : Json → String
  | .null => "None"
  | .bool b => if b then "True" else "False"
  | .num n => toString n
  | .str s => "\x27" ++ s ++ "\x27"
  | .arr xs => "[" ++ String.intercalate ", " (pyReprArr xs) ++ "]"
  | .obj fs => "\x7b" ++ String.intercalate ", " (pyReprObj fs) ++ "\x7d"
  termination_by structural j => j
def pyReprArr : JsonArr → List String
  | .nil => []
  | .cons x tl => pyRepr x :: pyReprArr tl
  termination_by structural xs => xs
def pyReprObj : JsonObj → List String
  | .nil => []
  | .cons k v tl => ("\x27" ++ k ++ "\x27: " ++ pyRepr v) :: pyReprObj tl
  termination_by structural fs => fs
end

def pyStr : Json → String
  | .str s => s
  | v => pyRepr v

/-- Python `c in s` for a single character. -/
def strHasChar (s : String) (c : Char) : Bool := s.data.contains c

/-- Sub-object keys scanned by `_candidate_dicts` in src/consumers/mapper.py. -/
def mapperSubKeys : List String := ["meta", "data", "payload", "event"]

/-- Sub-object keys scanned by `RabbitMQConsumer._candidate_dicts` in
src/consumers/rabbitmq_consumer.py. -/
def consumerSubKeys : List String := ["meta", "data", "payload", "event", "properties"]

/-- The sub-dictionaries of `d` under `keys`, in key-list order, keeping only
values that are themselves dictionaries. -/
def subDicts (d : JsonObj) (keys : List String) : List JsonObj :=
  keys.filterMap fun k =>
    match d.get k with
    | some (.obj v) => some v
    | _ => none

/-- `_candidate_dicts` from src/consumers/mapper.py. -/
def candidate_dicts (payload : Json) : List JsonObj :=
  match payload with
  | .obj d => d :: subDicts d mapperSubKeys
  | _ => []

/-- `RabbitMQConsumer._candidate_dicts` from src/consumers/rabbitmq_consumer.py. -/
def consumer_candidate_dicts (payload : Json) : List JsonObj :=
  match payload with
  | .obj d => d :: subDicts d consumerSubKeys
  | _ => []

/-- Inner loop of `_first_nonempty_str`: scan the key priority list within one
candidate dictionary; missing keys, `None` values and values whose
`str(v).strip()` is empty are skipped. -/
def firstKeyHit (d : JsonObj) : List String → Option String
  | [] => none
  | k :: ks =>
    match d.get k with
    | none => firstKeyHit d ks
    | some .null => firstKeyHit d ks
    | some v =>
      let s := pyStrip (pyStr v)
      if s = "" then firstKeyHit d ks else some s

/-- `_first_nonempty_str` from src/consumers/mapper.py: candidates outer,
keys inner, first hit wins. -/
def first_nonempty_str : List JsonObj → List String → Option String
  | [], _ => none
  | d :: ds, keys =>
    match firstKeyHit d keys with
    | some s => some s
    | none => first_nonempty_str ds keys

def userIdKeys : List String := ["user_id", "userId", "uid", "customer_id", "customerId"]

/-- `_best_effort_user_id`: scan result is discarded when it looks like an
email address (contains `@`) or exceeds 64 characters. -/
def best_effort_user_id (payload : Json) : Option String :=
  match first_nonempty_str (candidate_dicts payload) userIdKeys with
  | some u => if strHasChar u '@' then none else if u.length > 64 then none else some u
  | none => none

def entityIdKeys : List String :=
  ["entity_id", "entityId", "order_id", "orderId", "payment_id", "paymentId",
   "review_id", "reviewId", "product_id", "productId", "cart_id", "cartId", "id"]

def best_effort_entity_id (payload : Json) : Option String :=
  first_nonempty_str (candidate_dicts payload) entityIdKeys

def serviceKeys : List String :=
  ["service", "service_name", "serviceName", "producer", "source"]

/-- `_best_effort_service`: `(svc or "unknown")[:64]` (a scan hit is never the
empty string, so `or` is the `Option` default). -/
def best_effort_service (payload : Json) : String :=
  ((first_nonempty_str (candidate_dicts payload) serviceKeys).getD "unknown").take 64

def eventTypeKeys : List String :=
  ["event_type", "eventType", "type", "name", "event", "action"]

/-- `_best_effort_event_type`: `(et or routing_key or "unknown")[:100]`. -/
def best_effort_event_type (payload : Json) (routing_key : String) : String :=
  ((first_nonempty_str (candidate_dicts payload) eventTypeKeys).getD
    (orDefault routing_key "unknown")).take 100

def correlationKeys : List String :=
  ["correlation_id", "correlationId", "correlationID", "request_id", "requestId",
   "trace_id", "traceId"]

/-- `_best_effort_correlation_id`: a truthy message correlation id whose strip
is nonempty wins (truncated to 64), else the payload scan (truncated to 64). -/
def best_effort_correlation_id (payload : Json) (message_correlation_id : Option String) :
    Option String :=
  let viaMessage : Option String :=
    match message_correlation_id with
    | some c =>
      if c = "" then none
      else
        let s := pyStrip c
        if s = "" then none else some (s.take 64)
    | none => none
  match viaMessage with
  | some s => some s
  | none =>
    match first_nonempty_str (candidate_dicts payload) correlationKeys with
    | some cid => some (cid.take 64)
    | none => none

/-! ### Timestamp extraction (src/consumers/mapper.py)

Instants are microseconds since the Unix epoch (Python datetimes carry
microsecond precision).  `datetime.fromisoformat` is embedded for the
`YYYY-MM-DD[<sep>HH[:MM[:SS[.ffffff]]][±HH[:MM[:SS]]]]` core of the
ISO-8601 grammar it accepts; `datetime.fromtimestamp` range errors
(`datetime` years run 1..9999) are modelled by the explicit bounds.
-/

def digitsToNat (cs : List Char) : Nat := cs.foldl (fun a c => a * 10 + (c.toNat - 48)) 0

def isLeapYear (y : Int) : Bool := (y % 4 == 0 && y % 100 != 0) || y % 400 == 0

def daysInMonth (y : Int) (m : Nat) : Nat :=
  if m = 2 then (if isLeapYear y then 29 else 28)
  else if m = 4 ∨ m = 6 ∨ m = 9 ∨ m = 11 then 30
  else 31

/-- Days from 1970-01-01 of the civil date y-m-d (proleptic Gregorian). -/
def daysFromCivil (y : Int) (m d : Nat) : Int :=
  let y2 : Int := if m ≤ 2 then y - 1 else y
  let era : Int := (if 0 ≤ y2 then y2 else y2 - 399) / 400
  let yoe : Int := y2 - era * 400
  let mp : Nat := (m + 9) % 12
  let doy : Nat := (153 * mp + 2) / 5 + d - 1
  let doe : Int := yoe * 365 + yoe / 4 - yoe / 100 + doy
  era * 146097 + doe - 719468

/-- Fractional-second digits: at least one digit, scaled to microseconds
(digits beyond six are truncated, as in CPython). -/
def parseFrac (cs : List Char) : Option Nat :=
  if cs = [] then none
  else if cs.all Char.isDigit then
    let six := cs.take 6
    some (digitsToNat six * 10 ^ (6 - six.length))
  else none

/-- `HH`, `HH:MM`, `HH:MM:SS` or `HH:MM:SS.f+` to (hour, minute, second, μs). -/
def parseTimeOfDay (cs : List Char) : Option (Nat × Nat × Nat × Nat) :=
  match cs with
  | [h1, h2] =>
    if h1.isDigit && h2.isDigit then some (digitsToNat [h1, h2], 0, 0, 0) else none
  | h1 :: h2 :: c1 :: m1 :: m2 :: rest =>
    if h1.isDigit && h2.isDigit && c1 == ':' && m1.isDigit && m2.isDigit then
      let hh := digitsToNat [h1, h2]
      let mm := digitsToNat [m1, m2]
      match rest with
      | [] => some (hh, mm, 0, 0)
      | c2 :: s1 :: s2 :: rest2 =>
        if c2 == ':' && s1.isDigit && s2.isDigit then
          let ss := digitsToNat [s1, s2]
          match rest2 with
          | [] => some (hh, mm, ss, 0)
          | dot :: frac =>
            if dot == '.' then
              match parseFrac frac with
              | some us => some (hh, mm, ss, us)
              | none => none
            else none
        else none
      | _ => none
    else none
  | _ => none

/-- UTC-offset digits after the sign: `HH`, `HHMM` or `HH:MM[:SS]`, in seconds. -/
def parseOffset (cs : List Char) : Option Int :=
  match cs with
  | [o1, o2] =>
    if o1.isDigit && o2.isDigit && digitsToNat [o1, o2] ≤ 23 then
      some (digitsToNat [o1, o2] * 3600)
    else none
  | [o1, o2, o3, o4] =>
    if o1.isDigit && o2.isDigit && o3.isDigit && o4.isDigit &&
        digitsToNat [o1, o2] ≤ 23 && digitsToNat [o3, o4] ≤ 59 then
      some (digitsToNat [o1, o2] * 3600 + digitsToNat [o3, o4] * 60)
    else none
  | [o1, o2, c1, o3, o4] =>
    if o1.isDigit && o2.isDigit && c1 == ':' && o3.isDigit && o4.isDigit &&
        digitsToNat [o1, o2] ≤ 23 && digitsToNat [o3, o4] ≤ 59 then
      some (digitsToNat [o1, o2] * 3600 + digitsToNat [o3, o4] * 60)
    else none
  | [o1, o2, c1, o3, o4, c2, o5, o6] =>
    if o1.isDigit && o2.isDigit && c1 == ':' && o3.isDigit && o4.isDigit && c2 == ':' &&
        o5.isDigit && o6.isDigit && digitsToNat [o1, o2] ≤ 23 &&
        digitsToNat [o3, o4] ≤ 59 && digitsToNat [o5, o6] ≤ 59 then
      some (digitsToNat [o1, o2] * 3600 + digitsToNat [o3, o4] * 60 + digitsToNat [o5, o6])
    else none
  | _ => none

/-- Split the time-of-day characters from a trailing signed offset. -/
def splitAtSign : List Char → List Char × Option (Char × List Char)
  | [] => ([], none)
  | c :: cs =>
    if c == '+' || c == '-' then ([], some (c, cs))
    else
      let p := splitAtSign cs
      (c :: p.1, p.2)

/-- `datetime.fromisoformat` core: naive microseconds plus optional offset
seconds.  The date is `YYYY-MM-DD`; any single character may separate the
time (CPython 3.11+). -/
def isoParseChars (cs : List Char) : Option (Int × Option Int) :=
  match cs with
  | y1 :: y2 :: y3 :: y4 :: s1 :: mo1 :: mo2 :: s2 :: d1 :: d2 :: rest =>
    if y1.isDigit && y2.isDigit && y3.isDigit && y4.isDigit && s1 == '-' &&
        mo1.isDigit && mo2.isDigit && s2 == '-' && d1.isDigit && d2.isDigit then
      let y : Int := (digitsToNat [y1, y2, y3, y4] : Nat)
      let mo := digitsToNat [mo1, mo2]
      let dd := digitsToNat [d1, d2]
      if 1 ≤ mo && mo ≤ 12 && 1 ≤ dd && dd ≤ daysInMonth y mo && 1 ≤ y then
        match rest with
        | [] => some (daysFromCivil y mo dd * 86400000000, none)
        | _sep :: timeRest =>
          let p := splitAtSign timeRest
          match parseTimeOfDay p.1 with
          | none => none
          | some (hh, mm, ss, us) =>
            if hh ≤ 23 && mm ≤ 59 && ss ≤ 59 then
              let naive : Int :=
                daysFromCivil y mo dd * 86400000000 +
                  ((hh * 3600 + mm * 60 + ss) * 1000000 + us : Nat)
              match p.2 with
              | none => some (naive, none)
              | some (sign, ocs) =>
                match parseOffset ocs with
                | none => none
                | some off => some (naive, some (if sign == '-' then -off else off))
            else none
      else none
    else none
  | _ => none

/-- `_iso_to_utc` from src/consumers/mapper.py: strip, empty → None, trailing
`Z` rewritten to `+00:00`, parse; a naive result is assumed UTC, an aware one
is converted to UTC. -/
def iso_to_utc (value : String) : Option Int :=
  let s := pyStrip value
  if s = "" then none
  else
    let cs :=
      match s.data.reverse with
      | c :: rest =>
        if c == 'Z' then rest.reverse ++ ['+', '0', '0', ':', '0', '0'] else s.data
      | [] => s.data
    match isoParseChars cs with
    | none => none
    | some (naive, none) => some naive
    | some (naive, some off) => some (naive - off * 1000000)

def epochMinMicros : Int := -62135596800000000

def epochMaxMicros : Int := 253402300799999999

/-- `_epoch_to_utc`: values above 1e12 are milliseconds, otherwise seconds;
out-of-range values make `datetime.fromtimestamp` raise, returning None. -/
def epoch_to_utc (v : Int) : Option Int :=
  let micros : Int := if v > 10 ^ 12 then v * 1000 else v * 1000000
  if micros < epochMinMicros ∨ micros > epochMaxMicros then none else some micros

def tsKeys : List String :=
  ["event_timestamp", "eventTimestamp", "timestamp", "ts", "occurred_at", "occurredAt",
   "created_at", "createdAt", "time"]

/-- One payload value in the timestamp scan: strings go through ISO parsing,
numbers through the epoch interpretation; Python `bool` is an `int` instance,
so booleans also reach `_epoch_to_utc`. -/
def tsFromValue : Json → Option Int
  | .str s => iso_to_utc s
  | .num n => epoch_to_utc n
  | .bool b => epoch_to_utc (if b then 1 else 0)
  | _ => none

def tsKeyHit (d : JsonObj) : List String → Option Int
  | [] => none
  | k :: ks =>
    match d.get k with
    | none => tsKeyHit d ks
    | some v =>
      match tsFromValue v with
      | some t => some t
      | none => tsKeyHit d ks

def tsScan : List JsonObj → Option Int
  | [] => none
  | d :: ds =>
    match tsKeyHit d tsKeys with
    | some t => some t
    | none => tsScan ds

/-- The message envelope timestamp attribute: absent (or of an unused type),
a datetime (aware when it carries an offset), or a number. -/
inductive MsgTs where
  | none
  | dt (micros : Int) (offsetSeconds : Option Int)
  | num (n : Int)
  deriving DecidableEq

/-- `_best_effort_event_timestamp` from src/consumers/mapper.py. -/
def best_effort_event_timestamp (payload : Json) (message_timestamp : MsgTs) (now : Int) :
    Int :=
  match tsScan (candidate_dicts payload) with
  | some t => t
  | none =>
    match message_timestamp with
    | .dt micros Option.none => micros
    | .dt micros (some off) => micros - off * 1000000
    | .num n =>
      match epoch_to_utc n with
      | some t => t
      | Option.none => now
    | .none => now

/-! ### Message consumer ack/reject policy (src/consumers/rabbitmq_consumer.py)

`_process_message` is abstracted over the outcomes of its three fallible
steps: JSON decoding of the body, normalization, and the retried database
insert (`some inserted` on success, `none` when the insert raised after its
retries).  The dead letters written and the returned action string are the
observable effects; `_handle_message` then turns the action into the broker
acknowledgement, re-checking the DLQ configuration.
-/

inductive MsgAction where
  | ack
  | reject
  deriving DecidableEq

/-- `RabbitMQConsumer._process_message`: dead-letter reasons written, and the
action string returned. -/
def process_message (dlqConfigured : Bool) (decodeOk : Bool) (normalizeOk : Bool)
    (insertOutcome : Option Bool) : List String × String :=
  if ¬ decodeOk then (["invalid_json"], if dlqConfigured then "reject" else "ack")
  else if ¬ normalizeOk then (["normalize_failed"], if dlqConfigured then "reject" else "ack")
  else
    match insertOutcome with
    | none => (["db_insert_failed"], if dlqConfigured then "reject" else "ack")
    | some _ => ([], "ack")

/-- `RabbitMQConsumer._handle_message`: runs `_process_message` under a broad
`except` (a failing dead-letter write leaves the default action `"ack"` and
stores nothing), then rejects without requeue only when the returned action
is `"reject"` and a DLQ is configured, else acks. -/
def handle_message (dlqConfigured : Bool) (decodeOk : Bool) (normalizeOk : Bool)
    (insertOutcome : Option Bool) (dlWriteOk : Bool) : List String × MsgAction :=
  let r := process_message dlqConfigured decodeOk normalizeOk insertOutcome
  if r.1 ≠ [] ∧ ¬ dlWriteOk then ([], .ack)
  else (r.1, if r.2 = "reject" ∧ dlqConfigured then .reject else .ack)

/-! ### Pipeline run rows (src/ops/run_logger.py)

`ops.etl_runs` rows; times in seconds.  The reaper compares `started_at`
against both `SYSUTCDATETIME()` and `SYSDATETIME()`, so both clock readings
are parameters.
-/

structure EtlRun where
  runId : String
  runType : String
  startedAt : Int
  finishedAt : Option Int
  status : String
  rowsInserted : Int
  errorMessage : Option String
  deriving DecidableEq

def autoFailMsg (olderThanMinutes : Int) : String :=
  "Auto-failed stale running run (older than " ++ toString olderThanMinutes ++ " minutes)."

/-- `run_type LIKE :run_type_pat` for the pattern `f"x%"` built by
`fail_stale_running_runs`: a `None` filter matches everything, otherwise the
run type must start with the given stem. -/
def likeMatches (pat : Option String) (runType : String) : Bool :=
  match pat with
  | none => true
  | some p => List.isPrefixOf p.data runType.data

/-- The WHERE clause of the reaper UPDATE. -/
def reapCond (olderThanMinutes nowUtc nowLocal : Int) (pat : Option String) (r : EtlRun) :
    Bool :=
  decide (r.status = "running") && decide (r.finishedAt = none) &&
    (decide (r.startedAt < nowUtc - olderThanMinutes * 60) ||
      decide (r.startedAt < nowLocal - olderThanMinutes * 60)) &&
    likeMatches pat r.runType

/-- Effect of the reaper UPDATE on one row. -/
def reapOne (olderThanMinutes nowUtc nowLocal : Int) (pat : Option String) (r : EtlRun) :
    EtlRun :=
  if reapCond olderThanMinutes nowUtc nowLocal pat r then
    { r with
      finishedAt := some nowUtc
      status := "failed"
      errorMessage := some (autoFailMsg olderThanMinutes) }
  else r

/-- `fail_stale_running_runs` (default `older_than_minutes = 10`): the updated
table and the returned rowcount. -/
def fail_stale_running_runs (db : List EtlRun) (runTypePat : Option String)
    (olderThanMinutes nowUtc nowLocal : Int) : List EtlRun × Nat :=
  (db.map (reapOne olderThanMinutes nowUtc nowLocal runTypePat),
   db.countP (reapCond olderThanMinutes nowUtc nowLocal runTypePat))

/-- Error-message truncation in `finish_run`: messages beyond 3800 characters
are cut and suffixed with `...`. -/
def finishMsg (error_message : Option String) : Option String :=
  match error_message with
  | some m => if m.length > 3800 then some (m.take 3800 ++ "...") else some m
  | none => none

/-- Effect of the `finish_run` UPDATE on one row: only the row with the given
id whose `finished_at` is still NULL is touched. -/
def finishOne (run_id status : String) (rows_inserted : Int) (error_message : Option String)
    (now : Int) (r : EtlRun) : EtlRun :=
  if decide (r.runId = run_id) && decide (r.finishedAt = none) then
    { r with
      finishedAt := some now
      status := status.take 32
      rowsInserted := rows_inserted
      errorMessage := finishMsg error_message }
  else r

/-- `finish_run` from src/ops/run_logger.py. -/
def finish_run (db : List EtlRun) (run_id status : String) (rows_inserted : Int)
    (error_message : Option String) (now : Int) : List EtlRun :=
  db.map (finishOne run_id status rows_inserted error_message now)

/-! ### Pipeline runner (src/jobs/runner.py, src/jobs/locking.py) -/

def LOCK_NAME : String := "kada_mandiya_etl_lock"

/-- `db_lock`: `sp_getapplock` with the given timeout returned `res`; a
negative result raises `LockNotAcquired(lock_name)`. -/
def dbLockAcquire (res : Int) (lock_name : String) : Except String Unit :=
  if res < 0 then .error lock_name else .ok ()

/-- Python `str.lower()` (ASCII range, which covers the seed-mode tokens). -/
def pyLower (s : String) : String :=
  String.mk (s.data.map fun c =>
    if c.toNat ≥ 65 && c.toNat ≤ 90 then Char.ofNat (c.toNat + 32) else c)

/-- `str(seed_mode or "business").strip().lower()`. -/
def seedModeNorm (seed_mode : String) : String := pyLower (pyStrip (orDefault seed_mode "business"))

/-- `_pipeline_run_type` from src/jobs/runner.py. -/
def pipeline_run_type (seed_mode : String) (enable_silver enable_gold : Bool) : String :=
  let n := seedModeNorm seed_mode
  let parts : List String :=
    (if n = "business" then ["seed"] else if n = "all" then ["seed-all"] else []) ++
      (if enable_silver then ["silver"] else []) ++
      (if enable_gold then ["gold"] else [])
  if parts = [] then "pipeline" else String.intercalate "+" parts

/-- Observable outcome of one `run_pipeline_once` invocation. -/
structure PipelineEffects where
  status : String
  run : Option String
  err : Option String
  stagesRan : Bool
  skippedRunRecorded : Bool
  lockTried : Bool
  lockTimeoutMs : Int
  deriving DecidableEq

/-- `run_pipeline_once` from src/jobs/runner.py, abstracted over the
`sp_getapplock` result (`lockRes`, requested with the `db_lock` default
`timeout_ms = 0`) and the outcome of `run_pipeline` (`stageOutcome`).
`.error` models the `ValueError` for an invalid seed mode. -/
def run_pipeline_once (seed_mode : String) (run_type : Option String)
    (enable_silver enable_gold : Bool) (lockRes : Int)
    (stageOutcome : Except String Unit) : Except String PipelineEffects :=
  let sm := seedModeNorm seed_mode
  if ¬ (sm = "none" ∨ sm = "business" ∨ sm = "all") then
    .error "seed_mode must be one of: none, business, all"
  else if sm = "none" ∧ ¬ enable_silver ∧ ¬ enable_gold then
    .ok ⟨"skipped", none, none, false, false, false, 0⟩
  else
    let runLabel := run_type.getD (pipeline_run_type sm enable_silver enable_gold)
    match dbLockAcquire lockRes LOCK_NAME with
    | .error _ =>
      .ok ⟨"skipped", some runLabel, none, false, run_type.isSome, true, 0⟩
    | .ok () =>
      match stageOutcome with
      | .ok () => .ok ⟨"success", none, none, true, false, true, 0⟩
      | .error e => .ok ⟨"failed", some runLabel, some e, true, false, true, 0⟩

/-! ### Collector authentication (src/api/security.py)

`require_api_key` guards `POST /events` as a dependency; `expected` is the
configured `ANALYTICS_API_KEY` secret (None when unset) and `x_analytics_key`
the presented `X-ANALYTICS-KEY` header.  `if not expected` is a Python
truthiness test, so an empty configured secret takes the 503 branch. -/
def require_api_key (expected : Option String) (x_analytics_key : Option String) :
    Except Nat Unit :=
  match expected with
  | none => .error 503
  | some e =>
    if e = "" then .error 503
    else if x_analytics_key ≠ some e then .error 401
    else .ok ()

/-! ### Specification-side definitions

Independent formulations written from the specification text, used to compare
the embedded source functions against the words of the spec.
-/

/-- Spec wording: the candidate-dictionary list is the payload itself followed
by the sub-objects under the given keys, in that fixed order, keeping only
sub-values that are themselves dictionaries. -/
def specCandidateDicts (payload : Json) (subKeys : List String) : List JsonObj :=
  match payload with
  | .obj d => d :: subDicts d subKeys
  | _ => []

/-- Spec wording: scan the candidate list in order and return the first
non-empty string found under the priority key list. -/
def specFirstNonempty (dcts : List JsonObj) (keys : List String) : Option String :=
  dcts.findSome? fun d =>
    keys.findSome? fun k =>
      match d.get k with
      | some v =>
        if v = Json.null then none
        else
          let s := pyStrip (pyStr v)
          if s = "" then none else some s
      | none => none

/-- Claim wording for C6: all payload string fields (ISO-8601) are tried
before any numeric field. -/
def specTsStrings (dcts : List JsonObj) : Option Int :=
  dcts.findSome? fun d =>
    tsKeys.findSome? fun k =>
      match d.get k with
      | some (.str s) => iso_to_utc s
      | _ => none

def specTsNumbers (dcts : List JsonObj) : Option Int :=
  dcts.findSome? fun d =>
    tsKeys.findSome? fun k =>
      match d.get k with
      | some (.num n) => epoch_to_utc n
      | some (.bool b) => epoch_to_utc (if b then 1 else 0)
      | _ => none

/-- Fallback chain after the payload scan: the message envelope timestamp,
then the current time. -/
def specEnvelope (mt : MsgTs) (now : Int) : Int :=
  match mt with
  | .dt micros none => micros
  | .dt micros (some off) => micros - off * 1000000
  | .num n =>
    match epoch_to_utc n with
    | some t => t
    | none => now
  | .none => now

/-- The claim's reading of the extraction order: string fields, then numeric
fields, then the envelope timestamp, then the current time. -/
def specBestEffortTsClaim (payload : Json) (mt : MsgTs) (now : Int) : Int :=
  match specTsStrings (candidate_dicts payload) with
  | some t => t
  | none =>
    match specTsNumbers (candidate_dicts payload) with
    | some t => t
    | none => specEnvelope mt now

/-- The amended reading: one interleaved scan, each value parsed according to
its own type, first success wins. -/
def specTsInterleaved (dcts : List JsonObj) : Option Int :=
  dcts.findSome? fun d => tsKeys.findSome? fun k => (d.get k).bind tsFromValue

/-! ## Proofs -/

/-! ### The key order is total and transitive -/

theorem strLtbAux_asymm : ∀ x y : List Char, strLtbAux x y = true → strLtbAux y x = false
  | _, [], h => by simp [strLtbAux] at h
  | [], _ :: _, _ => by simp [strLtbAux]
  | a :: as, b :: bs, h => by
    by_cases hab : a = b
    · subst hab
      simp only [strLtbAux, if_pos rfl] at h ⊢
      exact strLtbAux_asymm as bs h
    · simp only [strLtbAux, if_neg hab] at h
      have hba : b ≠ a := fun e => hab e.symm
      simp only [strLtbAux, if_neg hba]
      simp only [charLtb, decide_eq_true_eq] at h
      simp [charLtb, Nat.not_lt.mpr (Nat.le_of_lt h)]

theorem strLtbAux_trans :
    ∀ x y z : List Char, strLtbAux x y = true → strLtbAux y z = true → strLtbAux x z = true
  | _, _, [], _, h2 => by simp [strLtbAux] at h2
  | x, [], _ :: _, h1, _ => by
    cases x with
    | nil => simp [strLtbAux]
    | cons a as => simp [strLtbAux] at h1
  | [], b :: bs, c :: cs, _, _ => by simp [strLtbAux]
  | a :: as, b :: bs, c :: cs, h1, h2 => by
    by_cases hab : a = b <;> by_cases hbc : b = c
    · subst hab; subst hbc
      simp only [strLtbAux, if_pos rfl] at h1 h2 ⊢
      exact strLtbAux_trans as bs cs h1 h2
    · subst hab
      simp only [strLtbAux, if_pos rfl, if_neg hbc] at h1 h2 ⊢
      exact h2
    · subst hbc
      simp only [strLtbAux, if_neg hab] at h1 ⊢
      exact h1
    · simp only [strLtbAux, if_neg hab, if_neg hbc] at h1 h2
      simp only [charLtb, decide_eq_true_eq] at h1 h2
      have hac : a ≠ c := by
        intro e
        subst e
        exact absurd (Nat.lt_trans h1 h2) (Nat.lt_irrefl _)
      simp only [strLtbAux, if_neg hac, charLtb, decide_eq_true_eq]
      exact Nat.lt_trans h1 h2

theorem strLtbAux_connex :
    ∀ x y : List Char, strLtbAux x y = false → strLtbAux y x = false → x = y
  | [], [], _, _ => rfl
  | [], _ :: _, h1, _ => by simp [strLtbAux] at h1
  | _ :: _, [], _, h2 => by simp [strLtbAux] at h2
  | a :: as, b :: bs, h1, h2 => by
    by_cases hab : a = b
    · subst hab
      simp only [strLtbAux, if_pos rfl] at h1 h2
      rw [strLtbAux_connex as bs h1 h2]
    · have hba : b ≠ a := fun e => hab e.symm
      simp only [strLtbAux, if_neg hab, if_neg hba, charLtb, decide_eq_false_iff_not,
        decide_eq_true_eq, Nat.not_lt] at h1 h2
      have : a.toNat = b.toNat := Nat.le_antisymm h2 h1
      exact absurd (Char.eq_of_val_eq (UInt32.ext this)) hab

theorem strLeb_total (s t : String) : strLeb s t = true ∨ strLeb t s = true := by
  by_cases h : strLtb t s = true
  · right
    have := strLtbAux_asymm t.data s.data h
    simp [strLeb, strLtb, this]
  · left
    simp only [strLeb, strLtb]
    simp only [strLtb] at h
    simp [Bool.eq_false_iff.mpr h]

theorem strLeb_trans {a b c : String} (h1 : strLeb a b = true) (h2 : strLeb b c = true) :
    strLeb a c = true := by
  simp only [strLeb, strLtb, Bool.not_eq_true'] at h1 h2 ⊢
  by_cases hca : strLtbAux c.data a.data = true
  · by_cases hbc : strLtbAux b.data c.data = true
    · have := strLtbAux_trans _ _ _ hbc hca
      rw [h1] at this
      exact absurd this (by simp)
    · have hbceq := strLtbAux_connex b.data c.data (Bool.eq_false_iff.mpr hbc) h2
      rw [← hbceq, h1] at hca
      exact absurd hca (by simp)
  · exact Bool.eq_false_iff.mpr hca

instance : IsTotal (String × Json) jkeyLe :=
  ⟨fun a b => strLeb_total a.1 b.1⟩

instance : IsTrans (String × Json) jkeyLe :=
  ⟨fun _ _ _ h1 h2 => strLeb_trans h1 h2⟩

instance : IsTotal (String × String) pairLe :=
  ⟨fun a b => strLeb_total a.1 b.1⟩

instance : IsTrans (String × String) pairLe :=
  ⟨fun _ _ _ h1 h2 => strLeb_trans h1 h2⟩

/-! ### stable_json depends only on the canonical form (claim C2 machinery) -/

theorem stableJsonObj_ofList :
    ∀ l : List (String × Json), stableJsonObj (JsonObj.ofList l) = l.map serPairJ
  | [] => rfl
  | (k, v) :: tl => by
    simp only [JsonObj.ofList, stableJsonObj, List.map, serPairJ, stableJsonObj_ofList tl]

theorem map_serPairJ_insertionSort (l : List (String × Json)) :
    (List.insertionSort jkeyLe l).map serPairJ =
      List.insertionSort pairLe (l.map serPairJ) :=
  List.map_insertionSort jkeyLe pairLe serPairJ l (fun _ _ _ _ => Iff.rfl)

mutual
theorem stableJson_canon : ∀ j : Json, stableJson (canon j) = stableJson j
  | .null => rfl
  | .bool _ => rfl
  | .num _ => rfl
  | .str _ => rfl
  | .arr xs => by
    simp only [canon, stableJson, stableJsonArr_canon xs]
  | .obj fs => by
    simp only [canon, stableJson, stableJsonObj_ofList, map_serPairJ_insertionSort,
      mapSer_canonObjPairs fs,
      (List.sorted_insertionSort pairLe (stableJsonObj fs)).insertionSort_eq]
  termination_by structural j => j
theorem stableJsonArr_canon : ∀ xs : JsonArr, stableJsonArr (canonArr xs) = stableJsonArr xs
  | .nil => rfl
  | .cons x tl => by
    simp only [canonArr, stableJsonArr, stableJson_canon x, stableJsonArr_canon tl]
  termination_by structural xs => xs
theorem mapSer_canonObjPairs :
    ∀ fs : JsonObj, (canonObjPairs fs).map serPairJ = stableJsonObj fs
  | .nil => rfl
  | .cons k v tl => by
    simp only [canonObjPairs, List.map, stableJsonObj, serPairJ, stableJson_canon v,
      mapSer_canonObjPairs tl]
  termination_by structural fs => fs
end

theorem sha256hexOf_length (st : Hash8) : (sha256hexOf st).length = 64 := by
  simp [sha256hexOf, word8Hex, String.length]

/-- C2: for every routing key, message id and JSON payload object,
`compute_fingerprint` is deterministic: two structurally equal payloads whose
dictionary keys are given in different orders (equal canonical forms) produce
the identical digest, and that digest is a 64-character hex SHA-256 digest,
because `stable_json` sorts object keys and uses the fixed compact
separators. -/
theorem compute_fingerprint_deterministic (rk : String) (mid : Option String) (p q : Json)
    (h : canon p = canon q) :
    compute_fingerprint rk mid p = compute_fingerprint rk mid q ∧
      (compute_fingerprint rk mid p).length = 64 := by
  have hs : stable_json p = stable_json q := by
    rw [stable_json, stable_json, ← stableJson_canon p, ← stableJson_canon q, h]
  refine ⟨?_, sha256hexOf_length _⟩
  unfold compute_fingerprint
  rw [hs]

theorem compute_fingerprint_deterministic_witness :
    canon (Json.obj (.cons "b" (.num 2)
        (.cons "a" (.obj (.cons "y" (.str "s") (.cons "x" (.num 1) .nil))) .nil))) =
      canon (Json.obj (.cons "a" (.obj (.cons "x" (.num 1) (.cons "y" (.str "s") .nil)))
        (.cons "b" (.num 2) .nil))) ∧
    (compute_fingerprint "order.paid" (some "m1")
        (Json.obj (.cons "b" (.num 2)
          (.cons "a" (.obj (.cons "y" (.str "s") (.cons "x" (.num 1) .nil))) .nil))) =
      compute_fingerprint "order.paid" (some "m1")
        (Json.obj (.cons "a" (.obj (.cons "x" (.num 1) (.cons "y" (.str "s") .nil)))
          (.cons "b" (.num 2) .nil))) ∧
      (compute_fingerprint "order.paid" (some "m1")
        (Json.obj (.cons "b" (.num 2)
          (.cons "a" (.obj (.cons "y" (.str "s") (.cons "x" (.num 1) .nil))) .nil)))).length =
        64) :=
  ⟨rfl, compute_fingerprint_deterministic "order.paid" (some "m1") _ _ rfl⟩

/-- C10: `compute_fingerprint` with an absent message id equals the digest with
an empty message id (`message_id or ""` maps both to the empty string), so an
envelope differing only in absent-versus-empty message id is deduplicated as
if identical: claiming its fingerprint against a ledger already holding the
other digest returns false. -/
theorem compute_fingerprint_none_empty_mid (rk : String) (p : Json) (t : Int) (src : String) :
    compute_fingerprint rk none p = compute_fingerprint rk (some "") p ∧
      try_claim_fingerprint (compute_fingerprint rk (some "") p) t src
        (fun q => insertUniqueResult [compute_fingerprint rk none p] q.fingerprint) =
        .ok false := by
  have h : compute_fingerprint rk none p = compute_fingerprint rk (some "") p := rfl
  refine ⟨h, ?_⟩
  have hm : compute_fingerprint rk (some "") p ∈ [compute_fingerprint rk none p] := by
    rw [h]
    exact List.mem_singleton_self _
  simp only [try_claim_fingerprint, fpClaimParams, insertUniqueResult, if_pos hm]
  rfl

/-- C1: for every fingerprint, first-seen timestamp and source,
`try_claim_fingerprint` returns true when the row is inserted (first claim)
and false, without raising, when the insert fails with a driver error whose
text carries the duplicate-key codes 2601 or 2627; every other database error
propagates to the caller.  The same contract holds for `try_claim_event_id`
keyed by `event_id`. -/
theorem try_claim_duplicate_key_contract
    (fp fp2 evid evid2 rk : String) (t : Int) (src : String) (mid : Option String)
    (dupMsg othMsg : String) (keys : List String)
    (hdup : isDuplicateKeyMsg dupMsg = true)
    (hnd : isDuplicateKeyMsg othMsg = false)
    (hin : fp ∈ keys) (hout : fp2 ∉ keys)
    (hin2 : evid ∈ keys) (hout2 : evid2 ∉ keys) :
    try_claim_fingerprint fp t src (fun _ => .ok) = .ok true ∧
    try_claim_fingerprint fp t src (fun _ => .err dupMsg) = .ok false ∧
    try_claim_fingerprint fp t src (fun _ => .err othMsg) = .error othMsg ∧
    try_claim_fingerprint fp t src (fun q => insertUniqueResult keys q.fingerprint) =
      .ok false ∧
    try_claim_fingerprint fp2 t src (fun q => insertUniqueResult keys q.fingerprint) =
      .ok true ∧
    try_claim_event_id evid t rk mid src (fun _ => .ok) = .ok true ∧
    try_claim_event_id evid t rk mid src (fun _ => .err dupMsg) = .ok false ∧
    try_claim_event_id evid t rk mid src (fun _ => .err othMsg) = .error othMsg ∧
    try_claim_event_id evid t rk mid src (fun q => insertUniqueResult keys q.eventId) =
      .ok false ∧
    try_claim_event_id evid2 t rk mid src (fun q => insertUniqueResult keys q.eventId) =
      .ok true := by
  refine ⟨rfl, ?_, ?_, ?_, ?_, rfl, ?_, ?_, ?_, ?_⟩
  · simp [try_claim_fingerprint, hdup]
  · simp [try_claim_fingerprint, hnd]
  · simp only [try_claim_fingerprint, fpClaimParams, insertUniqueResult, if_pos hin]
    rfl
  · simp only [try_claim_fingerprint, fpClaimParams, insertUniqueResult, if_neg hout]
  · simp [try_claim_event_id, hdup]
  · simp [try_claim_event_id, hnd]
  · simp only [try_claim_event_id, evClaimParams, insertUniqueResult, if_pos hin2]
    rfl
  · simp only [try_claim_event_id, evClaimParams, insertUniqueResult, if_neg hout2]

theorem try_claim_duplicate_key_contract_witness :
    isDuplicateKeyMsg
        "Violation of PRIMARY KEY constraint. Cannot insert duplicate key. Error 2627." =
        true ∧
    isDuplicateKeyMsg "Transaction was deadlocked. Error 1205." = false ∧
    "f1" ∈ ["f1", "e1"] ∧ "f2" ∉ ["f1", "e1"] ∧ "e1" ∈ ["f1", "e1"] ∧ "e2" ∉ ["f1", "e1"] ∧
    (try_claim_fingerprint "f1" 1700000000 "rabbitmq" (fun _ => .ok) = .ok true ∧
      try_claim_fingerprint "f1" 1700000000 "rabbitmq"
          (fun _ =>
            .err "Violation of PRIMARY KEY constraint. Cannot insert duplicate key. Error 2627.") =
        .ok false ∧
      try_claim_fingerprint "f1" 1700000000 "rabbitmq"
          (fun _ => .err "Transaction was deadlocked. Error 1205.") =
        .error "Transaction was deadlocked. Error 1205." ∧
      try_claim_fingerprint "f1" 1700000000 "rabbitmq"
          (fun q => insertUniqueResult ["f1", "e1"] q.fingerprint) =
        .ok false ∧
      try_claim_fingerprint "f2" 1700000000 "rabbitmq"
          (fun q => insertUniqueResult ["f1", "e1"] q.fingerprint) =
        .ok true ∧
      try_claim_event_id "e1" 1700000000 "order.paid" (some "m1") "rabbitmq" (fun _ => .ok) =
        .ok true ∧
      try_claim_event_id "e1" 1700000000 "order.paid" (some "m1") "rabbitmq"
          (fun _ =>
            .err "Violation of PRIMARY KEY constraint. Cannot insert duplicate key. Error 2627.") =
        .ok false ∧
      try_claim_event_id "e1" 1700000000 "order.paid" (some "m1") "rabbitmq"
          (fun _ => .err "Transaction was deadlocked. Error 1205.") =
        .error "Transaction was deadlocked. Error 1205." ∧
      try_claim_event_id "e1" 1700000000 "order.paid" (some "m1") "rabbitmq"
          (fun q => insertUniqueResult ["f1", "e1"] q.eventId) =
        .ok false ∧
      try_claim_event_id "e2" 1700000000 "order.paid" (some "m1") "rabbitmq"
          (fun q => insertUniqueResult ["f1", "e1"] q.eventId) =
        .ok true) :=
  ⟨by decide, by decide, by decide, by decide, by decide, by decide,
    try_claim_duplicate_key_contract "f1" "f2" "e1" "e2" "order.paid" 1700000000 "rabbitmq"
      (some "m1")
      "Violation of PRIMARY KEY constraint. Cannot insert duplicate key. Error 2627."
      "Transaction was deadlocked. Error 1205." ["f1", "e1"]
      (by decide) (by decide) (by decide) (by decide) (by decide) (by decide)⟩

/-- C4: on decode failure the consumer writes the `invalid_json` dead letter
and rejects without requeue when a DLQ is configured, else acks; the same
policy applies to `normalize_failed` and `db_insert_failed`; a duplicate
fingerprint claim (insert returned false) and a successful insert both end in
an ack with no dead letter. -/
theorem consumer_dead_letter_policy (dlq normOk : Bool) (ins : Option Bool) :
    handle_message dlq false normOk ins true =
      (["invalid_json"], if dlq then .reject else .ack) ∧
    handle_message dlq true false ins true =
      (["normalize_failed"], if dlq then .reject else .ack) ∧
    handle_message dlq true true none true =
      (["db_insert_failed"], if dlq then .reject else .ack) ∧
    handle_message dlq true true (some false) true = ([], .ack) ∧
    handle_message dlq true true (some true) true = ([], .ack) := by
  cases dlq <;> simp [handle_message, process_message]

/-- C5: `validate_event_timestamp` succeeds exactly when the timestamp is at
most 10 minutes after `now` and at most 365 days before `now`; a timestamp
400 days in the past is rejected, 5 minutes in the future is accepted, and 20
minutes in the future is rejected. -/
theorem validate_event_timestamp_bounds (ts now : Int) :
    (validate_event_timestamp ts now = .ok () ↔
      ts ≤ now + 10 * 60 ∧ now - 365 * 86400 ≤ ts) ∧
    validate_event_timestamp (now - 400 * 86400) now =
      .error "event_timestamp is too far in the past" ∧
    validate_event_timestamp (now + 5 * 60) now = .ok () ∧
    validate_event_timestamp (now + 20 * 60) now =
      .error "event_timestamp is too far in the future" := by
  refine ⟨?_, ?_, ?_, ?_⟩
  · simp only [validate_event_timestamp, MAX_FUTURE_SKEW_SECONDS, MAX_PAST_AGE_DAYS]
    constructor
    · intro h
      by_cases h1 : ts > now + 10 * 60
      · rw [if_pos h1] at h
        exact absurd h (by simp)
      · by_cases h2 : ts < now - 365 * 86400
        · rw [if_neg h1, if_pos h2] at h
          exact absurd h (by simp)
        · omega
    · intro hb
      rw [if_neg (by omega), if_neg (by omega)]
  · simp only [validate_event_timestamp, MAX_FUTURE_SKEW_SECONDS, MAX_PAST_AGE_DAYS]
    rw [if_neg (by omega), if_pos (by omega)]
  · simp only [validate_event_timestamp, MAX_FUTURE_SKEW_SECONDS, MAX_PAST_AGE_DAYS]
    rw [if_neg (by omega), if_neg (by omega)]
  · simp only [validate_event_timestamp, MAX_FUTURE_SKEW_SECONDS, MAX_PAST_AGE_DAYS]
    rw [if_pos (by omega)]

/-- C9 counterexample: with the configured secret equal to the empty string
(a set but empty `ANALYTICS_API_KEY`), a request with a differing header is
answered 503, not 401 as the claim states, because `if not expected` treats
the empty secret like a missing one. -/
theorem require_api_key_empty_secret_cex :
    require_api_key (some "") (some "x") = .error 503 ∧
      require_api_key (some "") (some "x") ≠ .error 401 :=
  ⟨rfl, fun hcontra => by simp [require_api_key] at hcontra⟩

/-- C9 amended: a missing or empty configured secret is answered 503 regardless
of the header (even one equal to the empty secret, showing the presence check
precedes the comparison); with a non-empty configured secret, any differing or
absent header is rejected 401, and the matching header is accepted. -/
theorem require_api_key_amended (e : String) (h : Option String) (he : e ≠ "") :
    require_api_key none h = .error 503 ∧
      require_api_key (some "") h = .error 503 ∧
      require_api_key (some "") (some "") = .error 503 ∧
      (h ≠ some e → require_api_key (some e) h = .error 401) ∧
      require_api_key (some e) (some e) = .ok () := by
  refine ⟨rfl, rfl, rfl, ?_, ?_⟩
  · intro hne
    simp [require_api_key, he, hne]
  · simp [require_api_key, he]

theorem require_api_key_amended_witness :
    "sekrit" ≠ "" ∧
      (require_api_key none none = .error 503 ∧
        require_api_key (some "") none = .error 503 ∧
        require_api_key (some "") (some "") = .error 503 ∧
        (none ≠ some "sekrit" → require_api_key (some "sekrit") none = .error 401) ∧
        require_api_key (some "sekrit") (some "sekrit") = .ok ()) :=
  ⟨by decide, require_api_key_amended "sekrit" none (by decide)⟩

/-! ### Pipeline-run lifecycle lemmas -/

theorem reapCond_eq_true_iff (m nowUtc : Int) (pat : Option String) (r : EtlRun) :
    reapCond m nowUtc nowUtc pat r = true ↔
      r.status = "running" ∧ r.finishedAt = none ∧
        r.startedAt < nowUtc - m * 60 ∧ likeMatches pat r.runType = true := by
  simp [reapCond, Bool.and_eq_true, decide_eq_true_eq, Bool.or_self, and_assoc]

theorem reapOne_changed_iff (m nowUtc : Int) (pat : Option String) (r : EtlRun) :
    reapOne m nowUtc nowUtc pat r ≠ r ↔ reapCond m nowUtc nowUtc pat r = true := by
  constructor
  · intro h
    by_cases hc : reapCond m nowUtc nowUtc pat r = true
    · exact hc
    · exact absurd (by simp [reapOne, hc]) h
  · intro hc he
    have hfin : r.finishedAt = none := ((reapCond_eq_true_iff m nowUtc pat r).mp hc).2.1
    have := congrArg EtlRun.finishedAt he
    rw [reapOne, if_pos hc] at this
    simp [hfin] at this

theorem finishOne_changed_cond (rid st : String) (rows : Int) (msg : Option String)
    (now2 : Int) (r : EtlRun) (h : finishOne rid st rows msg now2 r ≠ r) :
    r.runId = rid ∧ r.finishedAt = none := by
  by_cases hc : (decide (r.runId = rid) && decide (r.finishedAt = none)) = true
  · simpa [Bool.and_eq_true, decide_eq_true_eq] using hc
  · exact absurd (by simp [finishOne, hc]) h

/-- C7: with both server clock readings equal, the reaper changes exactly the
rows that are `running`, unfinished, older than the threshold and matching
the filter; `finish_run` only touches a row whose `finished_at` is NULL; a
row changed by either operation is never changed again by either, and both
table-level operations are the row-wise maps of these updates. -/
theorem run_row_terminal_transitions (db : List EtlRun) (r : EtlRun)
    (m nowUtc nowLocal now2 : Int) (pat : Option String) (rid st : String)
    (rows : Int) (msg : Option String)
    (hclock : nowLocal = nowUtc) :
    (reapOne m nowUtc nowLocal pat r ≠ r ↔
      r.status = "running" ∧ r.finishedAt = none ∧
        r.startedAt < nowUtc - m * 60 ∧ likeMatches pat r.runType = true) ∧
    (r.finishedAt ≠ none → finishOne rid st rows msg now2 r = r) ∧
    (r.finishedAt ≠ none → reapOne m nowUtc nowLocal pat r = r) ∧
    (reapOne m nowUtc nowLocal pat r ≠ r →
      reapOne m nowUtc nowLocal pat (reapOne m nowUtc nowLocal pat r) =
          reapOne m nowUtc nowLocal pat r ∧
        finishOne rid st rows msg now2 (reapOne m nowUtc nowLocal pat r) =
          reapOne m nowUtc nowLocal pat r) ∧
    (finishOne rid st rows msg now2 r ≠ r →
      finishOne rid st rows msg now2 (finishOne rid st rows msg now2 r) =
          finishOne rid st rows msg now2 r ∧
        reapOne m nowUtc nowLocal pat (finishOne rid st rows msg now2 r) =
          finishOne rid st rows msg now2 r) ∧
    fail_stale_running_runs db pat m nowUtc nowLocal =
      (db.map (reapOne m nowUtc nowLocal pat),
        db.countP (reapCond m nowUtc nowLocal pat)) ∧
    finish_run db rid st rows msg now2 = db.map (finishOne rid st rows msg now2) := by
  subst hclock
  refine ⟨(reapOne_changed_iff m nowLocal pat r).trans (reapCond_eq_true_iff m nowLocal pat r),
    ?_, ?_, ?_, ?_, rfl, rfl⟩
  · intro hfin
    simp [finishOne, hfin]
  · intro hfin
    have hc : reapCond m nowLocal nowLocal pat r = false := by
      rw [Bool.eq_false_iff]
      intro hc
      exact hfin ((reapCond_eq_true_iff m nowLocal pat r).mp hc).2.1
    simp [reapOne, hc]
  · intro hch
    have hc := (reapOne_changed_iff m nowLocal pat r).mp hch
    have hr1 : reapOne m nowLocal nowLocal pat r =
        { r with
          finishedAt := some nowLocal
          status := "failed"
          errorMessage := some (autoFailMsg m) } := by
      rw [reapOne, if_pos hc]
    rw [hr1]
    constructor
    · rw [reapOne, if_neg]
      simp [reapCond]
    · rw [finishOne, if_neg]
      simp
  · intro hch
    obtain ⟨hid, hfin⟩ := finishOne_changed_cond rid st rows msg now2 r hch
    have hr3 : finishOne rid st rows msg now2 r =
        { r with
          finishedAt := some now2
          status := st.take 32
          rowsInserted := rows
          errorMessage := finishMsg msg } := by
      rw [finishOne, if_pos (by simp [hid, hfin])]
    rw [hr3]
    constructor
    · rw [finishOne, if_neg]
      simp
    · rw [reapOne, if_neg]
      simp [reapCond]

theorem run_row_terminal_transitions_witness :
    (1000000 : Int) = 1000000 ∧
      ((reapOne 10 1000000 1000000 none
            ⟨"r1", "seed+silver+gold", 999000, none, "running", 0, none⟩ ≠
          ⟨"r1", "seed+silver+gold", 999000, none, "running", 0, none⟩ ↔
        "running" = "running" ∧ (none : Option Int) = none ∧
          (999000 : Int) < 1000000 - 10 * 60 ∧ likeMatches none "seed+silver+gold" = true) ∧
      ((none : Option Int) ≠ none →
        finishOne "r1" "success" 5 none 1000100
            ⟨"r1", "seed+silver+gold", 999000, none, "running", 0, none⟩ =
          ⟨"r1", "seed+silver+gold", 999000, none, "running", 0, none⟩) ∧
      ((none : Option Int) ≠ none →
        reapOne 10 1000000 1000000 none
            ⟨"r1", "seed+silver+gold", 999000, none, "running", 0, none⟩ =
          ⟨"r1", "seed+silver+gold", 999000, none, "running", 0, none⟩) ∧
      (reapOne 10 1000000 1000000 none
            ⟨"r1", "seed+silver+gold", 999000, none, "running", 0, none⟩ ≠
          ⟨"r1", "seed+silver+gold", 999000, none, "running", 0, none⟩ →
        reapOne 10 1000000 1000000 none
            (reapOne 10 1000000 1000000 none
              ⟨"r1", "seed+silver+gold", 999000, none, "running", 0, none⟩) =
          reapOne 10 1000000 1000000 none
            ⟨"r1", "seed+silver+gold", 999000, none, "running", 0, none⟩ ∧
          finishOne "r1" "success" 5 none 1000100
            (reapOne 10 1000000 1000000 none
              ⟨"r1", "seed+silver+gold", 999000, none, "running", 0, none⟩) =
            reapOne 10 1000000 1000000 none
              ⟨"r1", "seed+silver+gold", 999000, none, "running", 0, none⟩) ∧
      (finishOne "r1" "success" 5 none 1000100
            ⟨"r1", "seed+silver+gold", 999000, none, "running", 0, none⟩ ≠
          ⟨"r1", "seed+silver+gold", 999000, none, "running", 0, none⟩ →
        finishOne "r1" "success" 5 none 1000100
            (finishOne "r1" "success" 5 none 1000100
              ⟨"r1", "seed+silver+gold", 999000, none, "running", 0, none⟩) =
          finishOne "r1" "success" 5 none 1000100
            ⟨"r1", "seed+silver+gold", 999000, none, "running", 0, none⟩ ∧
          reapOne 10 1000000 1000000 none
            (finishOne "r1" "success" 5 none 1000100
              ⟨"r1", "seed+silver+gold", 999000, none, "running", 0, none⟩) =
            finishOne "r1" "success" 5 none 1000100
              ⟨"r1", "seed+silver+gold", 999000, none, "running", 0, none⟩) ∧
      fail_stale_running_runs [⟨"r1", "seed+silver+gold", 999000, none, "running", 0, none⟩]
          none 10 1000000 1000000 =
        ([⟨"r1", "seed+silver+gold", 999000, none, "running", 0, none⟩].map
            (reapOne 10 1000000 1000000 none),
          [⟨"r1", "seed+silver+gold", 999000, none, "running", 0, none⟩].countP
            (reapCond 10 1000000 1000000 none)) ∧
      finish_run [⟨"r1", "seed+silver+gold", 999000, none, "running", 0, none⟩] "r1" "success"
          5 none 1000100 =
        [⟨"r1", "seed+silver+gold", 999000, none, "running", 0, none⟩].map
          (finishOne "r1" "success" 5 none 1000100)) :=
  ⟨rfl,
    run_row_terminal_transitions
      [⟨"r1", "seed+silver+gold", 999000, none, "running", 0, none⟩]
      ⟨"r1", "seed+silver+gold", 999000, none, "running", 0, none⟩
      10 1000000 1000000 1000100 none "r1" "success" 5 none rfl⟩

/-- C8: when the non-blocking, zero-timeout lock acquisition fails (negative
`sp_getapplock` result raising `LockNotAcquired`), `run_pipeline_once` runs no
ETL stage regardless of the stage outcome value, returns status `skipped`,
and records a skipped pipeline-run row exactly when an explicit `run_type`
was supplied. -/
theorem run_pipeline_once_lock_not_acquired (seed_mode : String) (run_type : Option String)
    (es eg : Bool) (lockRes : Int) (so : Except String Unit)
    (hvalid : seedModeNorm seed_mode = "none" ∨ seedModeNorm seed_mode = "business" ∨
      seedModeNorm seed_mode = "all")
    (hwork : ¬ (seedModeNorm seed_mode = "none" ∧ ¬ es ∧ ¬ eg))
    (hlock : lockRes < 0) :
    run_pipeline_once seed_mode run_type es eg lockRes so =
      .ok ⟨"skipped",
        some (run_type.getD (pipeline_run_type (seedModeNorm seed_mode) es eg)),
        none, false, run_type.isSome, true, 0⟩ := by
  rw [run_pipeline_once]
  simp only [not_not_intro hvalid, if_false, hwork, dbLockAcquire, if_pos hlock]

theorem run_pipeline_once_lock_not_acquired_witness :
    (seedModeNorm "business" = "none" ∨ seedModeNorm "business" = "business" ∨
        seedModeNorm "business" = "all") ∧
      ¬ (seedModeNorm "business" = "none" ∧ ¬ false ∧ ¬ true) ∧ (-1 : Int) < 0 ∧
      run_pipeline_once "business" (some "watch_silver+gold") false true (-1)
          (.error "stage exploded") =
        .ok ⟨"skipped",
          some ((some "watch_silver+gold").getD
            (pipeline_run_type (seedModeNorm "business") false true)),
          none, false, (some "watch_silver+gold").isSome, true, 0⟩ :=
  ⟨by decide, by decide, by decide,
    run_pipeline_once_lock_not_acquired "business" (some "watch_silver+gold") false true (-1)
      (.error "stage exploded") (by decide) (by decide) (by decide)⟩

/-! ### Candidate-dictionary scan lemmas -/

theorem firstKeyHit_spec (d : JsonObj) : ∀ ks : List String,
    firstKeyHit d ks =
      ks.findSome? fun k =>
        match d.get k with
        | some v =>
          if v = Json.null then none
          else
            let s := pyStrip (pyStr v)
            if s = "" then none else some s
        | none => none
  | [] => rfl
  | k :: ks => by
    rw [List.findSome?]
    cases hv : d.get k with
    | none => simp [firstKeyHit, hv, firstKeyHit_spec d ks]
    | some v =>
      cases v <;> simp [firstKeyHit, hv, firstKeyHit_spec d ks] <;>
        split <;> simp [firstKeyHit_spec d ks]

theorem first_nonempty_str_spec :
    ∀ (ds : List JsonObj) (keys : List String),
      first_nonempty_str ds keys = specFirstNonempty ds keys
  | [], _ => rfl
  | d :: ds, keys => by
    rw [first_nonempty_str, specFirstNonempty, List.findSome?, firstKeyHit_spec d keys]
    cases h :
        keys.findSome? fun k =>
          match d.get k with
          | some v =>
            if v = Json.null then none
            else
              let s := pyStrip (pyStr v)
              if s = "" then none else some s
          | none => none with
    | none => simpa [h] using first_nonempty_str_spec ds keys
    | some s => simp [h]

theorem candidate_dicts_spec (payload : Json) :
    candidate_dicts payload = specCandidateDicts payload mapperSubKeys := by
  cases payload <;> rfl

theorem consumer_candidate_dicts_spec (payload : Json) :
    consumer_candidate_dicts payload = specCandidateDicts payload consumerSubKeys := by
  cases payload <;> rfl

/-- C3 counterexample: for the payload whose only sub-object sits under
`properties`, the normalizer's candidate list is not the claimed
payload-plus-[meta, data, payload, event, properties] list (mapper.py stops at
`event`), and user-id extraction misses the value the claimed list would
find. -/
theorem candidate_dicts_no_properties_cex :
    candidate_dicts
        (Json.obj (.cons "properties" (.obj (.cons "user_id" (.str "u1") .nil)) .nil)) ≠
      specCandidateDicts
        (Json.obj (.cons "properties" (.obj (.cons "user_id" (.str "u1") .nil)) .nil))
        consumerSubKeys ∧
    best_effort_user_id
        (Json.obj (.cons "properties" (.obj (.cons "user_id" (.str "u1") .nil)) .nil)) =
      none ∧
    specFirstNonempty
        (specCandidateDicts
          (Json.obj (.cons "properties" (.obj (.cons "user_id" (.str "u1") .nil)) .nil))
          consumerSubKeys)
        userIdKeys = some "u1" :=
  ⟨by decide, rfl, rfl⟩

/-- C3 amended: the normalizer's candidate list is the payload itself followed
by the dictionary sub-objects under `meta`, `data`, `payload`, `event` (the
consumer's own helper additionally scans `properties`); each per-field
extraction scans that list in order and returns the first non-empty string
under its priority key list, subject to the field's own post-processing
(user-id email/length filter, service and event-type defaults, length
truncations). -/
theorem normalizer_candidate_scan_amended (payload : Json) (rk : String) :
    candidate_dicts payload = specCandidateDicts payload mapperSubKeys ∧
    consumer_candidate_dicts payload = specCandidateDicts payload consumerSubKeys ∧
    best_effort_user_id payload =
      (match specFirstNonempty (specCandidateDicts payload mapperSubKeys) userIdKeys with
        | some u => if strHasChar u '@' then none else if u.length > 64 then none else some u
        | none => none) ∧
    best_effort_entity_id payload =
      specFirstNonempty (specCandidateDicts payload mapperSubKeys) entityIdKeys ∧
    best_effort_service payload =
      ((specFirstNonempty (specCandidateDicts payload mapperSubKeys) serviceKeys).getD
        "unknown").take 64 ∧
    best_effort_event_type payload rk =
      ((specFirstNonempty (specCandidateDicts payload mapperSubKeys) eventTypeKeys).getD
        (orDefault rk "unknown")).take 100 ∧
    best_effort_correlation_id payload none =
      (match specFirstNonempty (specCandidateDicts payload mapperSubKeys) correlationKeys with
        | some cid => some (cid.take 64)
        | none => none) ∧
    best_effort_correlation_id payload (some "") =
      (match specFirstNonempty (specCandidateDicts payload mapperSubKeys) correlationKeys with
        | some cid => some (cid.take 64)
        | none => none) := by
  refine ⟨candidate_dicts_spec payload, consumer_candidate_dicts_spec payload, ?_, ?_, ?_,
    ?_, ?_, ?_⟩ <;>
    simp [best_effort_user_id, best_effort_entity_id, best_effort_service,
      best_effort_event_type, best_effort_correlation_id, first_nonempty_str_spec,
      candidate_dicts_spec]

/-! ### Timestamp-scan lemmas -/

theorem tsKeyHit_spec (d : JsonObj) : ∀ ks : List String,
    tsKeyHit d ks = ks.findSome? fun k => (d.get k).bind tsFromValue
  | [] => rfl
  | k :: ks => by
    rw [List.findSome?]
    cases hv : d.get k with
    | none => simp [tsKeyHit, hv, tsKeyHit_spec d ks]
    | some v => cases ht : tsFromValue v <;> simp [tsKeyHit, hv, ht, tsKeyHit_spec d ks]

theorem tsScan_spec : ∀ ds : List JsonObj, tsScan ds = specTsInterleaved ds
  | [] => rfl
  | d :: ds => by
    rw [tsScan, specTsInterleaved, List.findSome?, tsKeyHit_spec d tsKeys]
    cases h : tsKeys.findSome? fun k => (d.get k).bind tsFromValue with
    | none => simpa [specTsInterleaved] using tsScan_spec ds
    | some t => simp

/-- C6 counterexample: with a numeric `event_timestamp` ahead of an ISO string
`timestamp` in the key priority order, the code returns the epoch
interpretation of the numeric field, while the claimed order (all string
fields before any numeric field) would return the parsed ISO instant. -/
theorem event_timestamp_order_cex :
    best_effort_event_timestamp
        (Json.obj (.cons "event_timestamp" (.num 1600000000)
          (.cons "timestamp" (.str "2021-01-01T00:00:00Z") .nil)))
        .none 0 = 1600000000000000 ∧
    specBestEffortTsClaim
        (Json.obj (.cons "event_timestamp" (.num 1600000000)
          (.cons "timestamp" (.str "2021-01-01T00:00:00Z") .nil)))
        .none 0 = 1609459200000000 ∧
    best_effort_event_timestamp
        (Json.obj (.cons "event_timestamp" (.num 1600000000)
          (.cons "timestamp" (.str "2021-01-01T00:00:00Z") .nil)))
        .none 0 ≠
      specBestEffortTsClaim
        (Json.obj (.cons "event_timestamp" (.num 1600000000)
          (.cons "timestamp" (.str "2021-01-01T00:00:00Z") .nil)))
        .none 0 :=
  ⟨rfl, rfl, by decide⟩

/-- C6 amended: extraction scans the candidate dictionaries and the timestamp
key-priority list in one interleaved pass — a string value is parsed as
ISO-8601 (trailing `Z` treated as UTC), a numeric value as epoch seconds, or
milliseconds when greater than 1e12 — and the first successfully parsed value
wins, ahead of the message envelope timestamp and then the current time;
malformed strings and numbers are skipped, so extraction always returns an
instant. -/
theorem best_effort_event_timestamp_amended (payload : Json) (mt : MsgTs) (now n m : Int)
    (s : String)
    (hn : 10 ^ 12 < n) (hn2 : n * 1000 ≤ epochMaxMicros)
    (hm : m ≤ 10 ^ 12) (hm1 : epochMinMicros ≤ m * 1000000) (hm2 : m * 1000000 ≤ epochMaxMicros)
    (hz : pyStrip (s ++ "Z") = s ++ "Z") (h0 : pyStrip (s ++ "+00:00") = s ++ "+00:00") :
    best_effort_event_timestamp payload mt now =
      (specTsInterleaved (candidate_dicts payload)).getD (specEnvelope mt now) ∧
    epoch_to_utc n = some (n * 1000) ∧
    epoch_to_utc m = some (m * 1000000) ∧
    iso_to_utc (s ++ "Z") = iso_to_utc (s ++ "+00:00") := by
  refine ⟨?_, ?_, ?_, ?_⟩
  · rw [best_effort_event_timestamp.eq_def, ← tsScan_spec]
    cases h : tsScan (candidate_dicts payload) with
    | some t => simp [h]
    | none =>
      cases mt with
      | none => simp [h, specEnvelope]
      | dt micros off => cases off <;> simp [h, specEnvelope]
      | num k => cases hk : epoch_to_utc k <;> simp [h, hk, specEnvelope]
  · have hn2' : n * 1000 ≤ 253402300799999999 := hn2
    have h' : ¬ (n * 1000 < epochMinMicros ∨ n * 1000 > epochMaxMicros) := by
      show ¬ (n * 1000 < -62135596800000000 ∨ n * 1000 > 253402300799999999)
      omega
    simp only [epoch_to_utc]
    rw [if_pos hn, if_neg h']
  · have hm1' : -62135596800000000 ≤ m * 1000000 := hm1
    have hm2' : m * 1000000 ≤ 253402300799999999 := hm2
    have h' : ¬ (m * 1000000 < epochMinMicros ∨ m * 1000000 > epochMaxMicros) := by
      show ¬ (m * 1000000 < -62135596800000000 ∨ m * 1000000 > 253402300799999999)
      omega
    simp only [epoch_to_utc]
    rw [if_neg (by omega : ¬ m > 10 ^ 12), if_neg h']
  · rw [iso_to_utc, iso_to_utc, hz, h0]
    have hne1 : ¬ s ++ "Z" = "" := by
      intro h
      have := congrArg String.data h
      simp at this
    have hne2 : ¬ s ++ "+00:00" = "" := by
      intro h
      have := congrArg String.data h
      simp at this
    rw [if_neg hne1, if_neg hne2]
    have hd1 : (s ++ "Z").data = s.data ++ ['Z'] := by simp
    have hd2 : (s ++ "+00:00").data = s.data ++ ['+', '0', '0', ':', '0', '0'] := by simp
    rw [hd1, hd2]
    simp [List.reverse_append]

theorem best_effort_event_timestamp_amended_witness :
    (10 : Int) ^ 12 < 1600000000000 ∧ (1600000000000 : Int) * 1000 ≤ epochMaxMicros ∧
      (1600000000 : Int) ≤ 10 ^ 12 ∧ epochMinMicros ≤ (1600000000 : Int) * 1000000 ∧
      (1600000000 : Int) * 1000000 ≤ epochMaxMicros ∧
      pyStrip ("2021-01-01T00:00:00" ++ "Z") = "2021-01-01T00:00:00" ++ "Z" ∧
      pyStrip ("2021-01-01T00:00:00" ++ "+00:00") = "2021-01-01T00:00:00" ++ "+00:00" ∧
      (best_effort_event_timestamp
          (Json.obj (.cons "event_timestamp" (.num 1600000000)
            (.cons "timestamp" (.str "2021-01-01T00:00:00Z") .nil)))
          (MsgTs.num 5) 77 =
        (specTsInterleaved (candidate_dicts
            (Json.obj (.cons "event_timestamp" (.num 1600000000)
              (.cons "timestamp" (.str "2021-01-01T00:00:00Z") .nil))))).getD
          (specEnvelope (MsgTs.num 5) 77) ∧
        epoch_to_utc 1600000000000 = some (1600000000000 * 1000) ∧
        epoch_to_utc 1600000000 = some (1600000000 * 1000000) ∧
        iso_to_utc ("2021-01-01T00:00:00" ++ "Z") =
          iso_to_utc ("2021-01-01T00:00:00" ++ "+00:00")) :=
  ⟨by decide, by decide, by decide, by decide, by decide, by decide, by decide,
    best_effort_event_timestamp_amended
      (Json.obj (.cons "event_timestamp" (.num 1600000000)
        (.cons "timestamp" (.str "2021-01-01T00:00:00Z") .nil)))
      (MsgTs.num 5) 77 1600000000000 1600000000 "2021-01-01T00:00:00"
      (by decide) (by decide) (by decide) (by decide) (by decide) (by decide) (by decide)⟩
